import Mathlib

/-!
Verification development for the regime/risk classification rule engine of
the ALCHEMY-ONCHAIN-METRICS repository.

The classification functions live in `src/regime_classifier.py` and
`src/strategy_params.py`; their threshold constants live in `src/config.py`.
Python dictionaries of scalar metrics are modelled as structures of optional
fields (`Option` = key absent), Python numeric values as rationals, and the
Python `None` value as an explicit constructor so that `float(None)` raising
`TypeError` can be modelled as `Option.none` in the result.
-/

/-- The fragment of Python values the classifier dictionaries carry:
numbers, or the `None` object. -/
inductive Py where
  | num : ℚ → Py
  | noneV : Py
deriving DecidableEq

/-- Python `float(v)`: a number converts to itself; `float(None)` raises
`TypeError`, modelled as `Option.none`. -/
def pyFloat : Py → Option ℚ
  | Py.num q => some q
  | Py.noneV => Option.none

/-- Python `d.get(key, default)` with a numeric default: the stored value if
the key is present, otherwise the default wrapped as a number. -/
def getOr (field : Option Py) (d : ℚ) : Py :=
  field.getD (Py.num d)

/-- Python truthiness of `d.get(key) is None`: true when the key is absent or
maps to the `None` object. -/
def isNoneGet : Option Py → Bool
  | Option.none => true
  | some Py.noneV => true
  | some (Py.num _) => false

/-! ### Threshold constants, from `src/config.py` `REGIME_THRESHOLDS` -/

namespace REGIME_THRESHOLDS

def fragile_oi_growth_min : ℚ := 25

def fragile_funding_avg_min : ℚ := 10/100

def fragile_liquidations_min : ℚ := 50000000

def stress_oi_growth_max : ℚ := -15

def stress_liquidations_min : ℚ := 100000000

def recovery_oi_growth_min : ℚ := -15

def recovery_oi_growth_max : ℚ := 0

def recovery_funding_avg_min : ℚ := 3/100

def recovery_funding_avg_max : ℚ := 8/100

def recovery_liquidations_max : ℚ := 20000000

def stable_oi_growth_min : ℚ := -10

def stable_oi_growth_max : ℚ := 15

def stable_funding_avg_min : ℚ := 1/100

def stable_funding_avg_max : ℚ := 6/100

def stable_liquidations_max : ℚ := 30000000

end REGIME_THRESHOLDS

/-! ### `classify_market_regime` (src/regime_classifier.py lines 24-74) -/

/-- The FRAGILE rule of `classify_market_regime` (lines 46-48):
`oi_growth > 25 and avg_funding > 0.10 and liquidations > 50_000_000`. -/
def fragilePred (avg_funding oi_growth liquidations : ℚ) : Bool :=
  decide (oi_growth > REGIME_THRESHOLDS.fragile_oi_growth_min ∧
    avg_funding > REGIME_THRESHOLDS.fragile_funding_avg_min ∧
    liquidations > REGIME_THRESHOLDS.fragile_liquidations_min)

/-- The STRESS rule (lines 53-54): `oi_growth < -15 and liquidations > 100_000_000`. -/
def stressPred (_avg_funding oi_growth liquidations : ℚ) : Bool :=
  decide (oi_growth < REGIME_THRESHOLDS.stress_oi_growth_max ∧
    liquidations > REGIME_THRESHOLDS.stress_liquidations_min)

/-- The RECOVERY rule (lines 59-61): `-15 <= oi_growth <= 0`,
`0.03 <= avg_funding <= 0.08`, `liquidations < 20_000_000`. -/
def recoveryPred (avg_funding oi_growth liquidations : ℚ) : Bool :=
  decide (REGIME_THRESHOLDS.recovery_oi_growth_min ≤ oi_growth ∧
    oi_growth ≤ REGIME_THRESHOLDS.recovery_oi_growth_max ∧
    REGIME_THRESHOLDS.recovery_funding_avg_min ≤ avg_funding ∧
    avg_funding ≤ REGIME_THRESHOLDS.recovery_funding_avg_max ∧
    liquidations < REGIME_THRESHOLDS.recovery_liquidations_max)

/-- The STABLE rule (lines 66-68): `-10 <= oi_growth <= 15`,
`0.01 <= avg_funding <= 0.06`, `liquidations < 30_000_000`. -/
def stablePred (avg_funding oi_growth liquidations : ℚ) : Bool :=
  decide (REGIME_THRESHOLDS.stable_oi_growth_min ≤ oi_growth ∧
    oi_growth ≤ REGIME_THRESHOLDS.stable_oi_growth_max ∧
    REGIME_THRESHOLDS.stable_funding_avg_min ≤ avg_funding ∧
    avg_funding ≤ REGIME_THRESHOLDS.stable_funding_avg_max ∧
    liquidations < REGIME_THRESHOLDS.stable_liquidations_max)

/-- The branch structure of `classify_market_regime` (lines 43-74), after the
three `float(...)` conversions have succeeded: the four rules are tested in
source order FRAGILE, STRESS, RECOVERY, STABLE, with TRANSITIONAL as the
final default; the first matching rule's label is returned. -/
def classifyCore (avg_funding oi_growth liquidations : ℚ) : String :=
  if fragilePred avg_funding oi_growth liquidations then "FRAGILE"
  else if stressPred avg_funding oi_growth liquidations then "STRESS"
  else if recoveryPred avg_funding oi_growth liquidations then "RECOVERY"
  else if stablePred avg_funding oi_growth liquidations then "STABLE"
  else "TRANSITIONAL"

/-- The metrics dictionary consumed by `classify_market_regime`: three keys,
each possibly absent. `{}` (the empty dictionary) is the record with every
field `Option.none`. -/
structure RegimeMetrics where
  avg_funding : Option Py := Option.none
  oi_growth_pct_7d : Option Py := Option.none
  total_liquidations_7d : Option Py := Option.none
deriving DecidableEq

/-- `classify_market_regime(query_results)` (src/regime_classifier.py lines
24-74): `avg_funding = float(get('avg_funding', 0.05))`,
`oi_growth = float(get('oi_growth_pct_7d', 0))`,
`liquidations = float(get('total_liquidations_7d', 0))` in that order — each
`float` call raises `TypeError` on a present `None` value, modelled by the
`Option` bind — then the first-match rule chain `classifyCore`. -/
def classify_market_regime (q : RegimeMetrics) : Option String := do
  let avg_funding ← pyFloat (getOr q.avg_funding (5/100))
  let oi_growth ← pyFloat (getOr q.oi_growth_pct_7d 0)
  let liquidations ← pyFloat (getOr q.total_liquidations_7d 0)
  pure (classifyCore avg_funding oi_growth liquidations)

/-! ### `assess_liquidity_health` (src/regime_classifier.py lines 77-130) -/

namespace LIQUIDITY_THRESHOLDS

def CRITICAL : ℚ := -30

def POOR : ℚ := -15

def BELOW_AVERAGE : ℚ := -5

def EXCELLENT : ℚ := 20

end LIQUIDITY_THRESHOLDS

/-- The metrics dictionary consumed by `assess_liquidity_health`. -/
structure LiquidityMetrics where
  tvl_today : Option Py := Option.none
  tvl_30d_avg : Option Py := Option.none
  deviation_from_30d_pct : Option Py := Option.none
deriving DecidableEq

/-- The health classification and numeric adjustment returned by
`assess_liquidity_health`. The source returns the adjustment under the key
`'adjustment'` in the UNKNOWN branch and `'position_size_adjustment'`
otherwise; we model the numeric value uniformly. -/
structure LiquidityHealth where
  health : String
  adjustment : ℚ
deriving DecidableEq

/-- The bucketing chain of `assess_liquidity_health` (lines 106-120), checked
in source order: `< -30 → CRITICAL(-0.4)`, `< -15 → POOR(-0.2)`,
`< -5 → BELOW_AVERAGE(-0.1)`, `> 20 → EXCELLENT(+0.1)`, else `NORMAL(0.0)`. -/
def liquidityBucket (deviation_pct : ℚ) : LiquidityHealth :=
  if deviation_pct < LIQUIDITY_THRESHOLDS.CRITICAL then ⟨"CRITICAL", -(4/10)⟩
  else if deviation_pct < LIQUIDITY_THRESHOLDS.POOR then ⟨"POOR", -(2/10)⟩
  else if deviation_pct < LIQUIDITY_THRESHOLDS.BELOW_AVERAGE then ⟨"BELOW_AVERAGE", -(1/10)⟩
  else if deviation_pct > LIQUIDITY_THRESHOLDS.EXCELLENT then ⟨"EXCELLENT", 1/10⟩
  else ⟨"NORMAL", 0⟩

/-- `assess_liquidity_health(query_results)` (lines 77-130): if
`get('tvl_today')` or `get('tvl_30d_avg')` is `None` (key absent or value
`None`), return `health='UNKNOWN', adjustment=0`; otherwise bucket
`get('deviation_from_30d_pct', 0)` — comparing a present `None` deviation
against a number would raise `TypeError`, modelled as `Option.none`. -/
def assess_liquidity_health (q : LiquidityMetrics) : Option LiquidityHealth :=
  if isNoneGet q.tvl_today || isNoneGet q.tvl_30d_avg then
    some ⟨"UNKNOWN", 0⟩
  else
    match getOr q.deviation_from_30d_pct 0 with
    | Py.noneV => Option.none
    | Py.num d => some (liquidityBucket d)

/-! ### `classify_leverage_cycle` (src/regime_classifier.py lines 133-166)

Only the numeric-or-absent fragment of the input dictionary is modelled here;
the cycle and protocol claims do not involve malformed values. -/

/-- The metrics dictionary consumed by `classify_leverage_cycle`. -/
structure CycleMetrics where
  pct_elevated_funding : Option ℚ := Option.none
  max_consecutive_high : Option ℚ := Option.none
deriving DecidableEq

/-- The phase and the action parameters returned by `classify_leverage_cycle`
(the `note` string and echoed inputs of the source dictionary are omitted). -/
structure CycleResult where
  phase : String
  leverage_limit : ℚ
  position_size_mult : ℚ
deriving DecidableEq

/-- `src/config.py` `LEVERAGE_CYCLE_ACTIONS`: the static
`(leverage_limit, position_size_mult)` table, `Option.none` for a key not in
the dictionary. -/
def LEVERAGE_CYCLE_ACTIONS (phase : String) : Option (ℚ × ℚ) :=
  if phase = "EARLY_CYCLE" then some (3, 12/10)
  else if phase = "MID_CYCLE" then some (2, 1)
  else if phase = "LATE_CYCLE" then some (3/2, 6/10)
  else if phase = "TRANSITIONAL" then some (2, 9/10)
  else Option.none

/-- `classify_leverage_cycle(query_results)` (lines 133-166):
`pct_elevated = get('pct_elevated_funding', 0)`,
`max_consecutive = get('max_consecutive_high', 0)`, the ordered phase rules,
then `LEVERAGE_CYCLE_ACTIONS.get(phase, LEVERAGE_CYCLE_ACTIONS['TRANSITIONAL'])`. -/
def classify_leverage_cycle (q : CycleMetrics) : CycleResult :=
  let pct_elevated := q.pct_elevated_funding.getD 0
  let max_consecutive := q.max_consecutive_high.getD 0
  let phase :=
    if pct_elevated > 70 ∧ max_consecutive > 20 then "LATE_CYCLE"
    else if pct_elevated > 50 ∧ max_consecutive > 10 then "MID_CYCLE"
    else if pct_elevated < 30 then "EARLY_CYCLE"
    else "TRANSITIONAL"
  let actions := (LEVERAGE_CYCLE_ACTIONS phase).getD (2, 9/10)
  ⟨phase, actions.1, actions.2⟩

/-! ### `check_protocol_health` (src/regime_classifier.py lines 169-210) -/

/-- One row of the protocol metrics list consumed by `check_protocol_health`. -/
structure ProtocolRow where
  protocol : Option String := Option.none
  asset : Option String := Option.none
  utilization : Option ℚ := Option.none
  avg_health_factor : Option ℚ := Option.none
deriving DecidableEq

/-- The alert strings emitted by `check_protocol_health`, abstracted to their
kind and interpolated data (the fixed surrounding text is not modelled). -/
inductive Alert where
  | critUtilization (protocol asset : String) (u : ℚ)
  | warnUtilization (protocol asset : String) (u : ℚ)
  | critHealthFactor (protocol asset : String) (hf : ℚ)
deriving DecidableEq

/-- Whether an alert is a CRITICAL one (🔴 in the source strings). -/
def Alert.isCritical : Alert → Bool
  | Alert.critUtilization _ _ _ => true
  | Alert.warnUtilization _ _ _ => false
  | Alert.critHealthFactor _ _ _ => true

/-- The alerts one row contributes in the loop body of `check_protocol_health`
(lines 185-208): `utilization > 0.90` appends a CRITICAL utilization alert,
`elif utilization > 0.80` a WARNING one; then
`if health_factor and health_factor < 1.3` — Python truthiness, so a present
value `0` is skipped — appends a CRITICAL health-factor alert. -/
def rowAlerts (row : ProtocolRow) : List Alert :=
  let protocol := row.protocol.getD "UNKNOWN"
  let asset := row.asset.getD "UNKNOWN"
  let u := row.utilization.getD 0
  (if u > 9/10 then [Alert.critUtilization protocol asset u]
   else if u > 8/10 then [Alert.warnUtilization protocol asset u]
   else []) ++
  (match row.avg_health_factor with
   | some hf => if hf ≠ 0 ∧ hf < 13/10 then [Alert.critHealthFactor protocol asset hf] else []
   | Option.none => [])

/-- `check_protocol_health(query_results)` (lines 169-210): a single `alerts`
accumulator, extended in input row order. -/
def check_protocol_health (rows : List ProtocolRow) : List Alert :=
  rows.foldl (fun alerts row => alerts ++ rowAlerts row) []

/-! ### `get_risk_multiplier` (src/regime_classifier.py lines 213-215) -/

/-- `src/config.py` `REGIME_RISK_MULTIPLIERS`, `Option.none` for a key not in
the dictionary. -/
def REGIME_RISK_MULTIPLIERS (regime : String) : Option ℚ :=
  if regime = "STABLE" then some 1
  else if regime = "RECOVERY" then some (12/10)
  else if regime = "TRANSITIONAL" then some (8/10)
  else if regime = "FRAGILE" then some (5/10)
  else if regime = "STRESS" then some (3/10)
  else if regime = "UNKNOWN" then some (8/10)
  else Option.none

/-- `get_risk_multiplier(regime)`:
`REGIME_RISK_MULTIPLIERS.get(regime, REGIME_RISK_MULTIPLIERS['UNKNOWN'])`,
and `REGIME_RISK_MULTIPLIERS['UNKNOWN'] = 0.8`. -/
def get_risk_multiplier (regime : String) : ℚ :=
  (REGIME_RISK_MULTIPLIERS regime).getD (8/10)

/-! ### `StrategyParameterLoader` (src/strategy_params.py) -/

/-- The persisted strategy-parameter record (`src/config.py` `SAFE_DEFAULTS`
plus the `updated_at` column and the `'_stale'` marker key; `protocol_alerts`
is omitted as no claim touches it). `updated_at` is a timestamp in seconds,
`Option.none` when the key is absent or NULL. -/
structure StrategyParams where
  regime : String
  max_position_size_btc : ℚ
  leverage_limit : ℚ
  risk_budget_multiplier : ℚ
  liquidity_health : String
  updated_at : Option ℚ
  stale : Bool
deriving DecidableEq

/-- `src/config.py` `SAFE_DEFAULTS`: the dictionary has no `updated_at` and
no `'_stale'` key, so those read back as `None` and `False`. -/
def SAFE_DEFAULTS : StrategyParams where
  regime := "UNKNOWN"
  max_position_size_btc := 3/10
  leverage_limit := 3/2
  risk_budget_multiplier := 7/10
  liquidity_health := "UNKNOWN"
  updated_at := Option.none
  stale := false

/-- `src/config.py` `STALENESS_HOURS = 24`. -/
def STALENESS_HOURS : ℚ := 24

/-- `StrategyParameterLoader._is_stale(params)` (src/strategy_params.py lines
118-125): true when `params.get('updated_at')` is `None`, or when
`datetime.utcnow() - updated_at > timedelta(hours=24)`; `now` is the current
time in seconds. -/
def is_stale (now : ℚ) (params : StrategyParams) : Bool :=
  match params.updated_at with
  | Option.none => true
  | some t => decide (now - t > STALENESS_HOURS * 3600)

/-- The mutable state of `StrategyParameterLoader` relevant to reloading. -/
structure LoaderState where
  params : StrategyParams
  last_load : ℚ
  reload_interval : ℚ
deriving DecidableEq

/-- `StrategyParameterLoader.maybe_reload` (src/strategy_params.py lines
102-116), with the database read `load_latest` abstracted as the `loaded`
argument (its success path sets `self.params = loaded` and
`self.last_load = now`): when the reload interval has elapsed, the loaded
parameters are adopted, except that a stale load is replaced by
`SAFE_DEFAULTS` with the `'_stale'` marker set. -/
def maybe_reload (st : LoaderState) (now : ℚ) (loaded : StrategyParams) : LoaderState :=
  if now - st.last_load > st.reload_interval then
    if is_stale now loaded then
      { st with params := { SAFE_DEFAULTS with stale := true }, last_load := now }
    else
      { st with params := loaded, last_load := now }
  else st

/-! ### First-match presentation of the regime rule chain -/

/-- The ordered rule list of `classify_market_regime`: FRAGILE, STRESS,
RECOVERY, STABLE. -/
def regimeRules : List ((ℚ → ℚ → ℚ → Bool) × String) :=
  [(fragilePred, "FRAGILE"), (stressPred, "STRESS"),
   (recoveryPred, "RECOVERY"), (stablePred, "STABLE")]

/-- First matching rule wins; TRANSITIONAL when no rule matches. -/
def firstMatch (rules : List ((ℚ → ℚ → ℚ → Bool) × String))
    (avg_funding oi_growth liquidations : ℚ) : String :=
  match rules with
  | [] => "TRANSITIONAL"
  | (p, label) :: rest =>
      if p avg_funding oi_growth liquidations then label
      else firstMatch rest avg_funding oi_growth liquidations

/-! ### Spec-side definitions and helper lemmas -/

attribute [simp] REGIME_THRESHOLDS.fragile_oi_growth_min
  REGIME_THRESHOLDS.fragile_funding_avg_min REGIME_THRESHOLDS.fragile_liquidations_min
  REGIME_THRESHOLDS.stress_oi_growth_max REGIME_THRESHOLDS.stress_liquidations_min
  REGIME_THRESHOLDS.recovery_oi_growth_min REGIME_THRESHOLDS.recovery_oi_growth_max
  REGIME_THRESHOLDS.recovery_funding_avg_min REGIME_THRESHOLDS.recovery_funding_avg_max
  REGIME_THRESHOLDS.recovery_liquidations_max REGIME_THRESHOLDS.stable_oi_growth_min
  REGIME_THRESHOLDS.stable_oi_growth_max REGIME_THRESHOLDS.stable_funding_avg_min
  REGIME_THRESHOLDS.stable_funding_avg_max REGIME_THRESHOLDS.stable_liquidations_max
  LIQUIDITY_THRESHOLDS.CRITICAL LIQUIDITY_THRESHOLDS.POOR
  LIQUIDITY_THRESHOLDS.BELOW_AVERAGE LIQUIDITY_THRESHOLDS.EXCELLENT
  STALENESS_HOURS

/-- The value `float(d.get(key, default))` produces when the stored value is
not the `None` object: the stored number, or the default. -/
def valOr (field : Option Py) (d : ℚ) : ℚ :=
  match field with
  | some (Py.num q) => q
  | _ => d

lemma pyFloat_getOr (field : Option Py) (d : ℚ) (h : field ≠ some Py.noneV) :
    pyFloat (getOr field d) = some (valOr field d) := by
  rcases field with _ | (q | _)
  · rfl
  · rfl
  · exact absurd rfl h

lemma classifyCore_mem (f o l : ℚ) :
    classifyCore f o l = "STABLE" ∨ classifyCore f o l = "RECOVERY" ∨
    classifyCore f o l = "TRANSITIONAL" ∨ classifyCore f o l = "FRAGILE" ∨
    classifyCore f o l = "STRESS" := by
  unfold classifyCore
  split_ifs <;> simp

lemma classify_eq_core (m : RegimeMetrics) (h1 : m.avg_funding ≠ some Py.noneV)
    (h2 : m.oi_growth_pct_7d ≠ some Py.noneV) (h3 : m.total_liquidations_7d ≠ some Py.noneV) :
    classify_market_regime m =
      some (classifyCore (valOr m.avg_funding (5/100)) (valOr m.oi_growth_pct_7d 0)
        (valOr m.total_liquidations_7d 0)) := by
  simp [classify_market_regime, pyFloat_getOr _ _ h1, pyFloat_getOr _ _ h2, pyFloat_getOr _ _ h3]

lemma classify_some_shape (m : RegimeMetrics) (r : String)
    (h : classify_market_regime m = some r) :
    ∃ f o l : ℚ, r = classifyCore f o l := by
  rcases m with ⟨af, og, tl⟩
  rcases af with _ | (q1 | _) <;> rcases og with _ | (q2 | _) <;> rcases tl with _ | (q3 | _) <;>
    simp [classify_market_regime, getOr, pyFloat] at h <;> exact ⟨_, _, _, h.symm⟩

/-! ### Claim theorems -/

/-- C1: `classify_market_regime` evaluates its four rule checks in the fixed
order FRAGILE, STRESS, RECOVERY, STABLE with TRANSITIONAL as the final
default, the first matching rule winning; consequently any input satisfying
both the FRAGILE predicate and the STABLE predicate classifies as FRAGILE
(the two predicates are in fact mutually exclusive, so the second part is
vacuous — see `claim_C1_fragile_stable_empty` below for that fact). -/
theorem claim_C1_priority_order :
    (∀ avg_funding oi_growth liquidations : ℚ,
      classifyCore avg_funding oi_growth liquidations =
        firstMatch regimeRules avg_funding oi_growth liquidations) ∧
    (∀ avg_funding oi_growth liquidations : ℚ,
      fragilePred avg_funding oi_growth liquidations = true →
      stablePred avg_funding oi_growth liquidations = true →
      classifyCore avg_funding oi_growth liquidations = "FRAGILE") := by
  constructor
  · intro f o l
    rfl
  · intro f o l h1 _
    simp [classifyCore, h1]

/-- The FRAGILE rule (`oi_growth > 25`) and the STABLE rule
(`oi_growth ≤ 15`) can never hold of the same input, so the priority
property of C1 is vacuously true. -/
lemma claim_C1_fragile_stable_empty (avg_funding oi_growth liquidations : ℚ) :
    ¬(fragilePred avg_funding oi_growth liquidations = true ∧
      stablePred avg_funding oi_growth liquidations = true) := by
  rintro ⟨h1, h2⟩
  simp [fragilePred, stablePred] at h1 h2
  linarith [h1.1, h2.2.1]

/-- C2 counterexample: the mapping `{avg_funding: None}` makes
`classify_market_regime` raise `TypeError` in `float(None)` (modelled as
`Option.none`), so the function is not total on mappings with malformed
values and returns no regime label there. -/
theorem claim_C2_counterexample :
    classify_market_regime { avg_funding := some Py.noneV } = Option.none := rfl

/-- C2 (amended): on every mapping whose present values are numeric (no
stored `None`), `classify_market_regime` returns one of the five labels
STABLE, RECOVERY, TRANSITIONAL, FRAGILE, STRESS (a subset of the six regime
labels) without raising; absent keys default to `avg_funding = 0.05`,
`oi_growth_pct_7d = 0`, `total_liquidations_7d = 0`. -/
theorem claim_C2_total_on_numeric :
    (∀ m : RegimeMetrics, m.avg_funding ≠ some Py.noneV →
      m.oi_growth_pct_7d ≠ some Py.noneV → m.total_liquidations_7d ≠ some Py.noneV →
      ∃ r, classify_market_regime m = some r ∧
        (r = "STABLE" ∨ r = "RECOVERY" ∨ r = "TRANSITIONAL" ∨ r = "FRAGILE" ∨ r = "STRESS")) ∧
    classify_market_regime {} = some (classifyCore (5/100) 0 0) := by
  constructor
  · intro m h1 h2 h3
    exact ⟨_, classify_eq_core m h1 h2 h3, classifyCore_mem _ _ _⟩
  · rfl

/-- C3 counterexample: calling `assess_liquidity_health` with only
`deviation_from_30d_pct = -35` supplied returns `health='UNKNOWN'` with
adjustment `0` (both TVL keys are absent, so the UNKNOWN guard fires), not
`health='CRITICAL'` with adjustment `-0.4` as the claim states. -/
theorem claim_C3_counterexample :
    assess_liquidity_health { deviation_from_30d_pct := some (Py.num (-35)) } =
      some ⟨"UNKNOWN", 0⟩ ∧
    (⟨"UNKNOWN", 0⟩ : LiquidityHealth) ≠ ⟨"CRITICAL", -(4/10)⟩ := by
  constructor
  · rfl
  · simp

/-- C3 (amended): with both TVL values present, `assess_liquidity_health`
buckets the deviation by the breakpoints in order CRITICAL (< -30),
POOR (< -15), BELOW_AVERAGE (< -5), EXCELLENT (> 20), else NORMAL, with the
paired adjustments -0.4, -0.2, -0.1, +0.1, 0.0; when either TVL value is
absent it returns health = 'UNKNOWN' with adjustment = 0; in particular,
calling it with only `deviation_pct = -35` supplied returns
`{health:'UNKNOWN', adjustment: 0}` because both TVL values are absent. -/
theorem claim_C3_bucketing :
    (∀ t a d : ℚ, assess_liquidity_health
      ⟨some (Py.num t), some (Py.num a), some (Py.num d)⟩ = some (liquidityBucket d)) ∧
    (∀ d : ℚ, d < -30 → liquidityBucket d = ⟨"CRITICAL", -(4/10)⟩) ∧
    (∀ d : ℚ, -30 ≤ d → d < -15 → liquidityBucket d = ⟨"POOR", -(2/10)⟩) ∧
    (∀ d : ℚ, -15 ≤ d → d < -5 → liquidityBucket d = ⟨"BELOW_AVERAGE", -(1/10)⟩) ∧
    (∀ d : ℚ, 20 < d → liquidityBucket d = ⟨"EXCELLENT", 1/10⟩) ∧
    (∀ d : ℚ, -5 ≤ d → d ≤ 20 → liquidityBucket d = ⟨"NORMAL", 0⟩) ∧
    (∀ m : LiquidityMetrics, m.tvl_today = Option.none ∨ m.tvl_30d_avg = Option.none →
      assess_liquidity_health m = some ⟨"UNKNOWN", 0⟩) ∧
    assess_liquidity_health { deviation_from_30d_pct := some (Py.num (-35)) } =
      some ⟨"UNKNOWN", 0⟩ := by
  refine ⟨?_, ?_, ?_, ?_, ?_, ?_, ?_, rfl⟩
  · intro t a d
    rfl
  · intro d h
    simp only [liquidityBucket]
    split_ifs <;> first | rfl | (exfalso; simp_all <;> linarith)
  · intro d h1 h2
    simp only [liquidityBucket]
    split_ifs <;> first | rfl | (exfalso; simp_all <;> linarith)
  · intro d h1 h2
    simp only [liquidityBucket]
    split_ifs <;> first | rfl | (exfalso; simp_all <;> linarith)
  · intro d h
    simp only [liquidityBucket]
    split_ifs <;> first | rfl | (exfalso; simp_all <;> linarith)
  · intro d h1 h2
    simp only [liquidityBucket]
    split_ifs <;> first | rfl | (exfalso; simp_all <;> linarith)
  · intro m hm
    rcases hm with h | h <;> simp [assess_liquidity_health, isNoneGet, h]

/-- C4: the three spec examples of `classify_market_regime`:
`{oi_growth_pct_7d:30, avg_funding:0.12, total_liquidations_7d:60_000_000}`
is FRAGILE, `{oi_growth_pct_7d:-20, avg_funding:0.08,
total_liquidations_7d:150_000_000}` is STRESS, and `{oi_growth_pct_7d:5,
avg_funding:0.04, total_liquidations_7d:15_000_000}` is STABLE. -/
theorem claim_C4_examples :
    classify_market_regime ⟨some (Py.num (12/100)), some (Py.num 30),
      some (Py.num 60000000)⟩ = some "FRAGILE" ∧
    classify_market_regime ⟨some (Py.num (8/100)), some (Py.num (-20)),
      some (Py.num 150000000)⟩ = some "STRESS" ∧
    classify_market_regime ⟨some (Py.num (4/100)), some (Py.num 5),
      some (Py.num 15000000)⟩ = some "STABLE" := by
  refine ⟨?_, ?_, ?_⟩ <;>
    norm_num [classify_market_regime, getOr, pyFloat, classifyCore, fragilePred, stressPred,
      recoveryPred, stablePred]

/-- C5: `get_risk_multiplier` is a pure total table lookup returning 1.0 for
STABLE, 1.2 for RECOVERY, 0.8 for TRANSITIONAL, 0.5 for FRAGILE, 0.3 for
STRESS, 0.8 for UNKNOWN, and the conservative default 0.8 for every string
not in the table. -/
theorem claim_C5_risk_multiplier_table :
    get_risk_multiplier "STABLE" = 1 ∧
    get_risk_multiplier "RECOVERY" = 12/10 ∧
    get_risk_multiplier "TRANSITIONAL" = 8/10 ∧
    get_risk_multiplier "FRAGILE" = 5/10 ∧
    get_risk_multiplier "STRESS" = 3/10 ∧
    get_risk_multiplier "UNKNOWN" = 8/10 ∧
    (∀ s : String,
      s ∉ ["STABLE", "RECOVERY", "TRANSITIONAL", "FRAGILE", "STRESS", "UNKNOWN"] →
      get_risk_multiplier s = 8/10) := by
  refine ⟨rfl, rfl, rfl, rfl, rfl, rfl, ?_⟩
  intro s hs
  simp only [List.mem_cons, List.not_mem_nil, or_false, not_or] at hs
  obtain ⟨h1, h2, h3, h4, h5, h6⟩ := hs
  simp [get_risk_multiplier, REGIME_RISK_MULTIPLIERS, h1, h2, h3, h4, h5, h6]

/-- C7: `StrategyParameterLoader._is_stale` returns true exactly when
`updated_at` is absent or more than 24 hours (86400 seconds) old, and a
triggered reload whose loaded record is stale replaces the loader's
parameters by the hard-coded safe defaults `regime='UNKNOWN'`,
`max_position_size_btc=0.3`, `leverage_limit=1.5`,
`risk_budget_multiplier=0.7` (with the `'_stale'` marker set), while a
non-stale load is adopted as-is. -/
theorem claim_C7_staleness :
    (∀ (now : ℚ) (p : StrategyParams), is_stale now p = true ↔
      (p.updated_at = Option.none ∨ ∃ t, p.updated_at = some t ∧ now - t > 24 * 3600)) ∧
    (∀ (st : LoaderState) (now : ℚ) (loaded : StrategyParams),
      now - st.last_load > st.reload_interval → is_stale now loaded = true →
      (maybe_reload st now loaded).params = { SAFE_DEFAULTS with stale := true }) ∧
    (∀ (st : LoaderState) (now : ℚ) (loaded : StrategyParams),
      now - st.last_load > st.reload_interval → is_stale now loaded = false →
      (maybe_reload st now loaded).params = loaded) ∧
    SAFE_DEFAULTS.regime = "UNKNOWN" ∧
    SAFE_DEFAULTS.max_position_size_btc = 3/10 ∧
    SAFE_DEFAULTS.leverage_limit = 3/2 ∧
    SAFE_DEFAULTS.risk_budget_multiplier = 7/10 := by
  refine ⟨?_, ?_, ?_, rfl, rfl, rfl, rfl⟩
  · intro now p
    rcases p with ⟨_, _, _, _, _, u, _⟩
    rcases u with _ | t <;> simp [is_stale]
  · intro st now loaded h1 h2
    simp [maybe_reload, h1, h2]
  · intro st now loaded h1 h2
    simp [maybe_reload, h1, h2]

/-- The per-row alert rule as the (amended) claim states it: one CRITICAL
alert when utilization > 0.90, one WARNING alert when 0.80 < utilization
≤ 0.90, and a separate CRITICAL alert when `avg_health_factor` is present,
non-zero (Python truthiness), and < 1.3. -/
def rowAlertsSpec (row : ProtocolRow) : List Alert :=
  let protocol := row.protocol.getD "UNKNOWN"
  let asset := row.asset.getD "UNKNOWN"
  let u := row.utilization.getD 0
  (if 9/10 < u then [Alert.critUtilization protocol asset u] else []) ++
  (if 8/10 < u ∧ u ≤ 9/10 then [Alert.warnUtilization protocol asset u] else []) ++
  (match row.avg_health_factor with
   | some hf =>
       if hf ≠ 0 ∧ hf < 13/10 then [Alert.critHealthFactor protocol asset hf] else []
   | Option.none => [])

lemma rowAlerts_eq_spec (row : ProtocolRow) : rowAlerts row = rowAlertsSpec row := by
  rcases row with ⟨p, a, u, hf⟩
  simp only [rowAlerts, rowAlertsSpec]
  rcases hf with _ | h <;> split_ifs <;> simp_all <;> linarith

lemma check_foldl_acc (rows : List ProtocolRow) (acc : List Alert) :
    rows.foldl (fun alerts row => alerts ++ rowAlerts row) acc =
      acc ++ (rows.map rowAlerts).flatten := by
  induction rows generalizing acc with
  | nil => simp
  | cons r rest ih => simp [List.foldl_cons, ih, List.append_assoc]

/-- C6 counterexample: the single row `{avg_health_factor: 0}` has a health
factor that is present and < 1.3, so the claim demands one CRITICAL alert,
but `check_protocol_health` emits none: `if health_factor and ...` treats
the present value `0` as falsy. -/
theorem claim_C6_counterexample :
    check_protocol_health [{ avg_health_factor := some 0 }] = [] ∧ (0 : ℚ) < 13/10 := by
  constructor
  · norm_num [check_protocol_health, rowAlerts]
  · norm_num

/-- C6 (amended): `check_protocol_health` processes rows independently in
input order, emitting per row one CRITICAL alert when utilization > 0.90,
one WARNING alert when 0.80 < utilization ≤ 0.90, and a separate CRITICAL
alert when `avg_health_factor` is present, non-zero (Python truthiness),
and < 1.3; each row contributes at most two alerts, and the single row
`{utilization_ratio: 0.95, avg_health_factor: 1.5}` yields exactly one
CRITICAL alert. -/
theorem claim_C6_protocol_health :
    (∀ rows : List ProtocolRow,
      check_protocol_health rows = (rows.map rowAlertsSpec).flatten) ∧
    (∀ row : ProtocolRow, (rowAlertsSpec row).length ≤ 2) ∧
    check_protocol_health [{ utilization := some (95/100), avg_health_factor := some (3/2) }] =
      [Alert.critUtilization "UNKNOWN" "UNKNOWN" (95/100)] ∧
    (Alert.critUtilization "UNKNOWN" "UNKNOWN" (95/100)).isCritical = true := by
  refine ⟨?_, ?_, ?_, rfl⟩
  · intro rows
    rw [check_protocol_health, check_foldl_acc]
    simp [funext rowAlerts_eq_spec]
  · intro row
    rcases row with ⟨p, a, u, hf⟩
    rcases hf with _ | h <;> simp only [rowAlertsSpec] <;> split_ifs <;> simp_all <;> linarith
  · norm_num [check_protocol_health, rowAlerts]

/-- Severity order of the liquidity health buckets, most severe first:
CRITICAL > POOR > BELOW_AVERAGE > NORMAL > EXCELLENT. -/
def severityRank (health : String) : ℕ :=
  if health = "CRITICAL" then 4
  else if health = "POOR" then 3
  else if health = "BELOW_AVERAGE" then 2
  else if health = "NORMAL" then 1
  else 0

/-- C8: liquidity bucketing is monotone in severity: with both TVL values
present and `d1 ≤ d2`, the bucket assigned to `d1` is at least as severe as
the one assigned to `d2` under CRITICAL > POOR > BELOW_AVERAGE > NORMAL >
EXCELLENT. -/
theorem claim_C8_monotone (t a d1 d2 : ℚ) (h : d1 ≤ d2) :
    assess_liquidity_health ⟨some (Py.num t), some (Py.num a), some (Py.num d1)⟩ =
      some (liquidityBucket d1) ∧
    assess_liquidity_health ⟨some (Py.num t), some (Py.num a), some (Py.num d2)⟩ =
      some (liquidityBucket d2) ∧
    severityRank (liquidityBucket d2).health ≤ severityRank (liquidityBucket d1).health := by
  refine ⟨rfl, rfl, ?_⟩
  simp only [liquidityBucket]
  split_ifs <;> simp_all [severityRank] <;> linarith

/-- A concrete instance of C8: `d1 = -40 ≤ 25 = d2`, where `d1` falls in the
CRITICAL bucket and `d2` in the EXCELLENT bucket. -/
theorem claim_C8_witness :
    assess_liquidity_health ⟨some (Py.num 1), some (Py.num 1), some (Py.num (-40))⟩ =
      some (liquidityBucket (-40)) ∧
    assess_liquidity_health ⟨some (Py.num 1), some (Py.num 1), some (Py.num 25)⟩ =
      some (liquidityBucket 25) ∧
    severityRank (liquidityBucket 25).health ≤ severityRank (liquidityBucket (-40)).health :=
  claim_C8_monotone 1 1 (-40) 25 (by norm_num)

/-- The phase rules as the claim states them, checked in order:
`pct_elevated > 70 and max_consecutive > 20 → LATE_CYCLE`, else
`pct_elevated > 50 and max_consecutive > 10 → MID_CYCLE`, else
`pct_elevated < 30 → EARLY_CYCLE`, else TRANSITIONAL. -/
def phaseSpec (pct_elevated max_consecutive : ℚ) : String :=
  if pct_elevated > 70 ∧ max_consecutive > 20 then "LATE_CYCLE"
  else if pct_elevated > 50 ∧ max_consecutive > 10 then "MID_CYCLE"
  else if pct_elevated < 30 then "EARLY_CYCLE"
  else "TRANSITIONAL"

/-- The static `(leverage_limit, position_size_mult)` table as the claim
states it: EARLY_CYCLE (3.0, 1.2), MID_CYCLE (2.0, 1.0), LATE_CYCLE
(1.5, 0.6), TRANSITIONAL (2.0, 0.9). -/
def cycleTableSpec (phase : String) : ℚ × ℚ :=
  if phase = "EARLY_CYCLE" then (3, 12/10)
  else if phase = "MID_CYCLE" then (2, 1)
  else if phase = "LATE_CYCLE" then (3/2, 6/10)
  else (2, 9/10)

/-- C9: for every input mapping, `classify_leverage_cycle` assigns the phase
by the ordered rules (LATE_CYCLE, MID_CYCLE, EARLY_CYCLE, TRANSITIONAL, with
absent keys defaulting to 0) and returns exactly the static table's
`(leverage_limit, position_size_mult)` pair for that phase. -/
theorem claim_C9_leverage_cycle :
    ∀ q : CycleMetrics,
      (classify_leverage_cycle q).phase =
        phaseSpec (q.pct_elevated_funding.getD 0) (q.max_consecutive_high.getD 0) ∧
      ((classify_leverage_cycle q).leverage_limit,
        (classify_leverage_cycle q).position_size_mult) =
        cycleTableSpec ((classify_leverage_cycle q).phase) := by
  intro q
  refine ⟨rfl, ?_⟩
  simp only [classify_leverage_cycle, cycleTableSpec, LEVERAGE_CYCLE_ACTIONS]
  split_ifs <;> simp_all

/-- C10: `classify_market_regime` never returns UNKNOWN — every successful
result is one of the five labels STABLE, RECOVERY, TRANSITIONAL, FRAGILE,
STRESS, and each of the five is attained; in particular the empty mapping
classifies as RECOVERY via the defaults `avg_funding = 0.05`,
`oi_growth_pct_7d = 0`, `total_liquidations_7d = 0`. -/
theorem claim_C10_range :
    (∀ f o l : ℚ, classifyCore f o l = "STABLE" ∨ classifyCore f o l = "RECOVERY" ∨
      classifyCore f o l = "TRANSITIONAL" ∨ classifyCore f o l = "FRAGILE" ∨
      classifyCore f o l = "STRESS") ∧
    (∀ (m : RegimeMetrics) (r : String), classify_market_regime m = some r →
      r ≠ "UNKNOWN") ∧
    classify_market_regime {} = some "RECOVERY" ∧
    classifyCore (11/100) 26 51000000 = "FRAGILE" ∧
    classifyCore (5/100) (-16) 101000000 = "STRESS" ∧
    classifyCore (5/100) 5 25000000 = "STABLE" ∧
    classifyCore 0 100 0 = "TRANSITIONAL" := by
  refine ⟨classifyCore_mem, ?_, ?_, ?_, ?_, ?_, ?_⟩
  · intro m r h
    obtain ⟨f, o, l, rfl⟩ := classify_some_shape m r h
    rcases classifyCore_mem f o l with h5 | h5 | h5 | h5 | h5 <;> simp [h5]
  all_goals
    norm_num [classify_market_regime, getOr, pyFloat, classifyCore, fragilePred, stressPred,
      recoveryPred, stablePred]
